import Mathlib

/-!
Verification development for the gateway client library
(src/discord/client.py, src/discord/utils.py, src/discord/voice_state.py).

The Python code is shallowly embedded: each handler method of
ConnectionState / Client becomes an executable Lean function on an explicit
state record, returning Except for code that can raise, together with an
ordered trace of observable actions (cache mutations, user-callback
invocations) so that ordering properties of dispatch can be stated.
-/

namespace Spec2Proof

/-- Python exceptions that the embedded code can raise
(list.remove on a missing element raises ValueError;
int('') raises ValueError). -/
inductive PyErr where
  | valueError
  | attributeError
  deriving DecidableEq, Repr

/-! ## Entity model

Modelled from the spec: the entity classes Channel / Server / Message live in
modules (channel.py, server.py, message.py) that are not under src/; the spec
describes them as records keyed by a unique numeric identifier, a Server
owning its channel collection, and a Message holding a non-owning reference
to its channel and author.  Only the fields the src/ handlers touch are kept.
-/

structure Channel where
  id : Nat
  deriving DecidableEq, Repr

structure Server where
  id : Nat
  channels : List Channel
  deriving DecidableEq, Repr

/-- Modelled from the spec: a Message as constructed by
Message(channel=..., **data) in handle_message_create; channel_id is the id
of the resolved channel object (None when the lookup failed), the timestamp
field holds the parsed datetime components. -/
structure Message where
  id : Nat
  channel_id : Option Nat
  author : Nat
  content : String
  edited_timestamp : Option (List Nat)
  deriving DecidableEq, Repr

/-! ## utils.py -/

/-- utils.find: return the first element of the sequence satisfying the
predicate, or None. -/
def utilsFind {α : Type} (p : α → Bool) (seq : List α) : Option α :=
  seq.find? p

/-- Python int(s): raises ValueError unless s is a (nonempty) digit string. -/
def pyInt (s : String) : Except PyErr Nat :=
  match s.toNat? with
  | some n => Except.ok n
  | none => Except.error PyErr.valueError

/-- re.split with the single-character class of non-digits: cut the string at
every non-digit character; consecutive separators yield empty tokens. -/
def splitNonDigits (s : String) : List String :=
  let step := fun (acc : List String × String) (c : Char) =>
    if c.isDigit then (acc.1, acc.2.push c) else (acc.1 ++ [acc.2], "")
  let r := s.toList.foldl step ([], "")
  r.1 ++ [r.2]

/-- utils.parse_time: None (or the empty string) maps to None, otherwise the
timestamp is split on non-digits after removing every '+00:00' occurrence and
each token converted with int (datetime construction is modelled as the list
of its integer components). -/
def pyParseTime (timestamp : Option String) : Except PyErr (Option (List Nat)) :=
  match timestamp with
  | none => Except.ok none
  | some ts =>
    if ts = "" then Except.ok none
    else do
      let toks := splitNonDigits (ts.replace "+00:00" "")
      let nums ← toks.mapM pyInt
      Except.ok (some nums)

/-! ## The message ring buffer

ConnectionState.messages is collections.deque(maxlen=...): insertion-ordered,
appending to a full deque evicts from the opposite (oldest) end.
-/

/-- The last n elements of a list (what a deque of capacity n retains). -/
def lastN {α : Type} (n : Nat) (l : List α) : List α :=
  l.drop (l.length - n)

/-- deque.append with maxlen = cap: append on the right, evicting from the
left when over capacity. -/
def ringAppend {α : Type} (cap : Nat) (l : List α) (m : α) : List α :=
  lastN cap (l ++ [m])

/-! ## ConnectionState -/

/-- ConnectionState.__init__: empty collections; the message deque capacity
comes from kwargs.get('max_length', 5000). -/
structure ConnectionState where
  servers : List Server
  private_channels : List Channel
  messages : List Message
  maxlen : Nat
  deriving DecidableEq, Repr

def initialConnectionState (max_length : Option Nat) : ConnectionState :=
  { servers := [], private_channels := [], messages := [],
    maxlen := max_length.getD 5000 }

/-- ConnectionState._get_server: first server whose id equals the payload's
guild_id (an absent guild_id matches nothing). -/
def ConnectionState.getServer (s : ConnectionState) (guild_id : Option Nat) :
    Option Server :=
  utilsFind (fun g => guild_id = some g.id) s.servers

/-- ConnectionState.get_channel: None for a None id; otherwise the first
channel with that id across all servers, then the private channels. -/
def ConnectionState.get_channel (s : ConnectionState) (id : Option Nat) :
    Option Channel :=
  match id with
  | none => none
  | some i =>
    match utilsFind (fun c => c.id = i) ((s.servers.map Server.channels).flatten) with
    | some c => some c
    | none => utilsFind (fun c => c.id = i) s.private_channels

/-- Replace the first server satisfying the predicate (the source mutates the
server object found by _get_server in place). -/
def updateFirstServer (p : Server → Bool) (f : Server → Server) :
    List Server → List Server
  | [] => []
  | g :: gs => if p g then f g :: gs else g :: updateFirstServer p f gs

/-! ## Event payloads (the 'd' field of the gateway frames the claims use) -/

structure MessageCreateData where
  id : Nat
  channel_id : Option Nat
  author : Nat
  content : String
  deriving DecidableEq, Repr

structure MessageDeleteData where
  id : Nat
  channel_id : Option Nat
  deriving DecidableEq, Repr

/-- A MESSAGE_UPDATE payload: 'id' is always present, other fields only when
the update carries them (Python iterates the keys of the dict). -/
structure MessageUpdateData where
  id : Nat
  content : Option String
  channel_id : Option Nat
  author : Option Nat
  edited_timestamp : Option String
  deriving DecidableEq, Repr

structure ChannelDeleteData where
  id : Nat
  guild_id : Option Nat
  deriving DecidableEq, Repr

inductive GatewayEventData where
  | messageCreate (d : MessageCreateData)
  | messageDelete (d : MessageDeleteData)
  | messageUpdate (d : MessageUpdateData)
  | channelDelete (d : ChannelDeleteData)
  deriving DecidableEq, Repr

/-! ## Dispatch trace model

Client.dispatch(event, *args) does, under the re-entrant lock:
  getattr(self, 'handle_' + event, _null_event)(*args)   -- never wrapped
  try: getattr(self, 'on_' + event, _null_event)(*args)
  except Exception: self.on_error('on_' + event, *args)
The only handle_ method on Client is handle_socket_update, which forwards to
the ConnectionState handler for the gateway event; those handlers call
self.dispatch again for the user-level events.  The trace records, in
execution order, every cache mutation and every user-callback invocation.
-/

/-- Arguments handed to a user-level callback. -/
inductive Args where
  | noArgs
  | message (m : Message)
  | messagePair (before after : Message)
  | channel (c : Channel)
  | gateway (ev : GatewayEventData)
  deriving DecidableEq, Repr

inductive Label where
  | userCallback (name : String) (a : Args)
  | onError (name : String) (a : Args)
  | cacheAppend (msgId : Nat)
  | cacheRemoveMessage (msgId : Nat)
  | cacheRemoveChannel (chanId : Nat)
  deriving DecidableEq, Repr

/-- Whether the user callback on_<name> raises; dispatch wraps the call and
routes a raise to Client.on_error. -/
def CallbackBehavior : Type := String → Bool

/-- The try/except around getattr(self, 'on_' + event)(*args): a raising
callback is replaced by an on_error invocation and the exception is
swallowed. -/
def userLayer (cb : CallbackBehavior) (name : String) (a : Args) : Label :=
  if cb name then Label.onError name a else Label.userCallback name a

/-- The Message built by handle_message_create:
Message(channel=self.get_channel(data.get('channel_id')), **data). -/
def messageFromCreate (s : ConnectionState) (d : MessageCreateData) : Message :=
  { id := d.id, channel_id := (s.get_channel d.channel_id).map Channel.id,
    author := d.author, content := d.content, edited_timestamp := none }

/-- ConnectionState.handle_message_create: resolve the channel, build the
Message, self.dispatch('message', message) — which runs the user-level
on_message — and only then append to the ring buffer. -/
def handle_message_create (cb : CallbackBehavior) (d : MessageCreateData)
    (s : ConnectionState) : Except PyErr (ConnectionState × List Label) :=
  let message := messageFromCreate s d
  Except.ok
    ({ s with messages := ringAppend s.maxlen s.messages message },
     [userLayer cb "message" (Args.message message),
      Label.cacheAppend message.id])

/-- ConnectionState.handle_message_delete: find the cached message by id; if
absent, nothing happens; otherwise self.dispatch('message_delete', found)
runs first and the removal from the deque follows it. -/
def handle_message_delete (cb : CallbackBehavior) (d : MessageDeleteData)
    (s : ConnectionState) : Except PyErr (ConnectionState × List Label) :=
  match utilsFind (fun m => m.id = d.id) s.messages with
  | none => Except.ok (s, [])
  | some found =>
    Except.ok
      ({ s with messages := s.messages.eraseP (fun m => m.id = found.id) },
       [userLayer cb "message_delete" (Args.message found),
        Label.cacheRemoveMessage found.id])

/-- The per-field patch loop of handle_message_update on the deep copy:
every key of the payload except channel_id and author is set on the copy,
keys containing 'time' through utils.parse_time. -/
def applyMessageUpdate (older : Message) (d : MessageUpdateData) :
    Except PyErr Message := do
  let et ← match d.edited_timestamp with
           | none => Except.ok older.edited_timestamp
           | some ts => pyParseTime (some ts)
  Except.ok { older with
              id := d.id,
              content := d.content.getD older.content,
              edited_timestamp := et }

/-- ConnectionState.handle_message_update: if no cached message has the
payload id the event is dropped; otherwise a deep copy is patched and
self.dispatch('message_edit', older, copy) runs.  The final statement
`older_message = message` only rebinds the local name, so the deque still
holds the unpatched message: the state is returned unchanged. -/
def handle_message_update (cb : CallbackBehavior) (d : MessageUpdateData)
    (s : ConnectionState) : Except PyErr (ConnectionState × List Label) :=
  match utilsFind (fun m => m.id = d.id) s.messages with
  | none => Except.ok (s, [])
  | some older => do
    let patched ← applyMessageUpdate older d
    Except.ok (s, [userLayer cb "message_edit" (Args.messagePair older patched)])

/-- ConnectionState.handle_channel_delete: when the guild is unknown nothing
happens; when the guild is known, the channel is looked up with utils.find
and server.channels.remove(channel) runs unconditionally — remove(None)
raises ValueError when the channel id is not cached.  On success the removal
precedes self.dispatch('channel_delete', channel). -/
def handle_channel_delete (cb : CallbackBehavior) (d : ChannelDeleteData)
    (s : ConnectionState) : Except PyErr (ConnectionState × List Label) :=
  match s.getServer d.guild_id with
  | none => Except.ok (s, [])
  | some server =>
    match utilsFind (fun c => c.id = d.id) server.channels with
    | none => Except.error PyErr.valueError
    | some channel =>
      let dropIt := fun (g : Server) =>
        { g with channels := g.channels.eraseP (fun c => c.id = channel.id) }
      let servers2 := updateFirstServer (fun g => g.id = server.id) dropIt s.servers
      Except.ok
        ({ s with servers := servers2 },
         [Label.cacheRemoveChannel channel.id,
          userLayer cb "channel_delete" (Args.channel channel)])

/-- Client.handle_socket_update: getattr(self.connection,
'handle_' + event.lower())(data). -/
def handle_socket_update (cb : CallbackBehavior) (ev : GatewayEventData)
    (s : ConnectionState) : Except PyErr (ConnectionState × List Label) :=
  match ev with
  | GatewayEventData.messageCreate d => handle_message_create cb d s
  | GatewayEventData.messageDelete d => handle_message_delete cb d s
  | GatewayEventData.messageUpdate d => handle_message_update cb d s
  | GatewayEventData.channelDelete d => handle_channel_delete cb d s

/-- The events that flow through Client.dispatch in the embedded fragment:
the gateway-driven socket_update plus the user-level events the cache
handlers re-dispatch (these have no handle_ method on Client, so their
dispatch only runs the wrapped user callback). -/
inductive Event where
  | socket_update (ev : GatewayEventData)
  | message (m : Message)
  | message_delete (m : Message)
  | message_edit (before after : Message)
  | channel_delete (c : Channel)
  deriving DecidableEq, Repr

def Event.name : Event → String
  | Event.socket_update _ => "socket_update"
  | Event.message _ => "message"
  | Event.message_delete _ => "message_delete"
  | Event.message_edit _ _ => "message_edit"
  | Event.channel_delete _ => "channel_delete"

def Event.args : Event → Args
  | Event.socket_update ev => Args.gateway ev
  | Event.message m => Args.message m
  | Event.message_delete m => Args.message m
  | Event.message_edit b a => Args.messagePair b a
  | Event.channel_delete c => Args.channel c

/-- Client.dispatch: the handle_ method (only socket_update has one) runs
unwrapped — an exception there propagates to the caller — and then the
user-level callback runs inside the try/except that routes to on_error. -/
def dispatch (cb : CallbackBehavior) (s : ConnectionState) (e : Event) :
    Except PyErr (ConnectionState × List Label) :=
  match e with
  | Event.socket_update ev =>
    match handle_socket_update cb ev s with
    | Except.ok r =>
      Except.ok (r.1, r.2 ++ [userLayer cb "socket_update" (Args.gateway ev)])
    | Except.error err => Except.error err
  | e => Except.ok (s, [userLayer cb e.name e.args])

/-! ## KeepAliveHandler and WebSocket.received_message (client.py)

KeepAliveHandler.run sends, every `seconds`, the payload
{'op': 1, 'd': int(time.time())} — the current unix timestamp.
WebSocket.received_message ignores every frame whose op is not 0 (it is
logged as an unhandled op and the method returns; nothing in the class
records sequence numbers or acknowledgements), and on the READY dispatch
event it starts the keep-alive thread with the interval from the payload.
-/

structure HeartbeatPayload where
  op : Nat
  d : Nat
  deriving DecidableEq, Repr

/-- The payload KeepAliveHandler.run builds for one tick: op 1 with the
current unix timestamp as 'd'. -/
def heartbeatPayload (now : Nat) : HeartbeatPayload :=
  { op := 1, d := now }

/-- The keep-alive thread's state: the interval (the source divides the
payload's millisecond value by 1000.0; we keep the millisecond figure) and
the stop event. -/
structure KeepAlive where
  intervalMs : Nat
  stopped : Bool
  deriving DecidableEq, Repr

inductive WsAction where
  | sendHeartbeat (p : HeartbeatPayload)
  | dispatchEvent (name : String)
  | forceReconnect
  deriving DecidableEq, Repr

/-- KeepAliveHandler.run: while the stop event is unset, send one heartbeat
per tick; the thread has no other effect (ticks are the wall-clock times at
which the waits elapse). -/
def keepAliveRun (ticks : List Nat) (ka : KeepAlive) : List WsAction :=
  if ka.stopped then []
  else ticks.map (fun t => WsAction.sendHeartbeat (heartbeatPayload t))

/-- A decoded gateway frame: op code, optional event name 't', optional
sequence number 's', and the READY payload's heartbeat interval when
present. -/
structure GatewayFrame where
  op : Nat
  t : Option String
  s : Option Nat
  heartbeat_interval : Option Nat
  deriving DecidableEq, Repr

/-- The WebSocket's mutable state relevant here: the keep-alive handler it
may have started.  Nothing stores a last-seen sequence number or a
heartbeat-acknowledgement flag. -/
structure WsState where
  keep_alive : Option KeepAlive
  deriving DecidableEq, Repr

def recognizedGatewayEvents : List String :=
  ["READY", "MESSAGE_CREATE", "MESSAGE_DELETE", "MESSAGE_UPDATE",
   "PRESENCE_UPDATE", "USER_UPDATE", "CHANNEL_DELETE", "CHANNEL_UPDATE",
   "CHANNEL_CREATE", "GUILD_MEMBER_ADD", "GUILD_MEMBER_REMOVE",
   "GUILD_MEMBER_UPDATE", "GUILD_CREATE", "GUILD_DELETE"]

/-- WebSocket.received_message: always dispatch socket_raw_receive; return
immediately for any op other than 0 (the frame is only logged — in
particular a heartbeat-acknowledgement frame changes nothing); for op 0
dispatch socket_response, start the keep-alive on READY, and forward
recognized events as socket_update. -/
def received_message (w : WsState) (f : GatewayFrame) : WsState × List WsAction :=
  if f.op ≠ 0 then (w, [WsAction.dispatchEvent "socket_raw_receive"])
  else
    let w2 :=
      match f.t, f.heartbeat_interval with
      | some "READY", some hb =>
        { w with keep_alive := some { intervalMs := hb, stopped := false } }
      | _, _ => w
    let tail :=
      match f.t with
      | some ev =>
        if recognizedGatewayEvents.contains ev
        then [WsAction.dispatchEvent "socket_update"] else []
      | none => []
    (w2, [WsAction.dispatchEvent "socket_raw_receive",
          WsAction.dispatchEvent "socket_response"] ++ tail)

/-- The last sequence number seen across a frame history ('s' fields); the
source never reads this field, so this exists only to state the spec's
heartbeat claim. -/
def lastSeenSeq (frames : List GatewayFrame) : Option Nat :=
  (frames.filterMap GatewayFrame.s).getLast?

/-! ## VoiceConnectionState (voice_state.py) -/

inductive ConnectionFlowState where
  | disconnected
  | set_guild_voice_state
  | got_voice_state_update
  | got_voice_server_update
  | got_both_voice_updates
  | websocket_connected
  | got_websocket_ready
  | got_ip_discovery
  | connected
  deriving DecidableEq, Repr

/-- The fields of VoiceConnectionState the embedded methods touch; MISSING
is modelled as none/false.  channel_id stands for
voice_client.channel.id. -/
structure VoiceState where
  flow : ConnectionFlowState
  token : Option String
  session_id : Option String
  endpoint : Option String
  endpoint_ip : Option String
  server_id : Option Nat
  ip : Option String
  port : Option Nat
  socket_open : Bool
  ws_open : Bool
  expecting_disconnect : Bool
  channel_id : Option Nat
  deriving DecidableEq, Repr

/-- Externally visible effects of the voice connection methods. -/
inductive VoiceAction where
  | wsClose (code : Nat)
  | changeVoiceState (join : Bool)
  | socketClose
  | waitForVoiceServerUpdate
  | connectWebsocket
  | handshakeWebsocket
  deriving DecidableEq, Repr

/-- str.rpartition(c)[0]: everything before the last occurrence of c, or the
empty string if c does not occur. -/
def rpartitionBefore (s : String) (c : Char) : String :=
  match s.toList.reverse.dropWhile (fun x => x ≠ c) with
  | [] => ""
  | _ :: beforeRev => String.mk beforeRev.reverse

/-- voice_server_update's endpoint handling: strip the port with
endpoint.rpartition(':')[0] and drop a leading 'wss://'. -/
def parseVoiceEndpoint (e : String) : String :=
  let base := rpartitionBefore e ':'
  if base.startsWith "wss://" then base.drop 6 else base

/-- VoiceConnectionState.disconnect (force=True): close the voice websocket
if open, _voice_disconnect (state := disconnected, send the leave
voice-state request, expecting_disconnect := True), reset ip/port, set the
state to disconnected and close the UDP socket if open. -/
def VoiceState.disconnectFn (s : VoiceState) : VoiceState × List VoiceAction :=
  let closeWs : List VoiceAction := if s.ws_open then [VoiceAction.wsClose 1000] else []
  let closeSock : List VoiceAction := if s.socket_open then [VoiceAction.socketClose] else []
  ({ s with flow := ConnectionFlowState.disconnected,
            expecting_disconnect := true,
            ip := none, port := none,
            socket_open := false, ws_open := false },
   closeWs ++ [VoiceAction.changeVoiceState false] ++ closeSock)

structure VoiceStatePayload where
  channel_id : Option Nat
  session_id : String
  deriving DecidableEq, Repr

structure VoiceServerPayload where
  token : Option String
  guild_id : Nat
  endpoint : Option String
  deriving DecidableEq, Repr

/-- VoiceConnectionState.voice_state_update.  A None channel_id either
consumes the expected-disconnect flag or disconnects; otherwise the session
id is stored and the flow state advances: from set_guild_voice_state to
got_voice_state_update, from got_voice_server_update to
got_both_voice_updates; while connected the channel is followed; during the
rest of the flow a differing channel id forces ws.close(4014) (channel move)
and a matching one is ignored. -/
def voice_state_update (d : VoiceStatePayload) (s : VoiceState) :
    VoiceState × List VoiceAction :=
  match d.channel_id with
  | none =>
    if s.expecting_disconnect then
      ({ s with expecting_disconnect := false }, [])
    else
      s.disconnectFn
  | some cid =>
    let s1 := { s with session_id := some d.session_id }
    if s1.flow = ConnectionFlowState.set_guild_voice_state then
      ({ s1 with flow := ConnectionFlowState.got_voice_state_update }, [])
    else if s1.flow = ConnectionFlowState.got_voice_server_update then
      ({ s1 with flow := ConnectionFlowState.got_both_voice_updates }, [])
    else if s1.flow = ConnectionFlowState.connected then
      ({ s1 with channel_id := some cid }, [])
    else if s1.flow ≠ ConnectionFlowState.disconnected then
      if some cid ≠ s1.channel_id then
        ({ s1 with channel_id := some cid }, [VoiceAction.wsClose 4014])
      else (s1, [])
    else (s1, [])

/-- VoiceConnectionState.voice_server_update.  token and server_id are
stored before the None check; with a usable token and endpoint the endpoint
is parsed and, while the two gating events are pending, the UDP socket is
created, endpoint_ip reset, and the flow state advances (to
got_voice_server_update or got_both_voice_updates); while connected the
websocket is closed with 4014 and the state drops back to
got_both_voice_updates. -/
def voice_server_update (d : VoiceServerPayload) (s : VoiceState) :
    VoiceState × List VoiceAction :=
  let s1 := { s with token := d.token, server_id := some d.guild_id }
  match d.token, d.endpoint with
  | some _, some ep =>
    let s2 := { s1 with endpoint := some (parseVoiceEndpoint ep) }
    if s2.flow = ConnectionFlowState.set_guild_voice_state then
      ({ s2 with endpoint_ip := none, socket_open := true,
                 flow := ConnectionFlowState.got_voice_server_update }, [])
    else if s2.flow = ConnectionFlowState.got_voice_state_update then
      ({ s2 with endpoint_ip := none, socket_open := true,
                 flow := ConnectionFlowState.got_both_voice_updates }, [])
    else if s2.flow = ConnectionFlowState.connected then
      ({ s2 with flow := ConnectionFlowState.got_both_voice_updates },
       [VoiceAction.wsClose 4014])
    else (s2, [])
  | _, _ => (s1, [])

/-- VoiceConnectionState._potential_reconnect.  The coroutine only awaits
the got_voice_server_update / got_both_voice_updates state (timeout bounded)
and then re-runs _connect_websocket and _handshake_websocket; it never
re-requests a voice state.  The two await outcomes are inputs: arrived is
whether the awaited state was reached within the timeout, hsOk whether the
websocket handshake completed. -/
def potential_reconnect (arrived hsOk : Bool) (s : VoiceState) :
    Bool × VoiceState × List VoiceAction :=
  if ¬ arrived then
    (false, s, [VoiceAction.waitForVoiceServerUpdate])
  else if hsOk then
    (true,
     { s with flow := ConnectionFlowState.connected, ws_open := true },
     [VoiceAction.waitForVoiceServerUpdate, VoiceAction.connectWebsocket,
      VoiceAction.handshakeWebsocket])
  else
    (false,
     { s with flow := ConnectionFlowState.websocket_connected, ws_open := true },
     [VoiceAction.waitForVoiceServerUpdate, VoiceAction.connectWebsocket])

/-- One iteration outcome of the _poll_voice_ws loop: poll_event returned
normally, or it raised ConnectionClosed with a close code, or it raised a
timeout.  The booleans carry the awaited outcomes of the recovery coroutines
run inside that iteration (state arrival / websocket handshake for
_potential_reconnect, success of the full connect retry). -/
inductive PollOutcome where
  | ok
  | closed (code : Nat) (arrived hsOk connOk : Bool)
  | timedOut (connOk : Bool)
  deriving DecidableEq, Repr

/-- The reconnect branch shared by unrecoverable-but-retryable closures and
timeouts: sleep with backoff, disconnect(cleanup=False), then retry
self.connect — which re-requests the voice state; a timeout inside connect
(which disconnects and re-raises) is caught and the loop continues. -/
def pollGenericBranch (connOk : Bool) (s : VoiceState) :
    VoiceState × List VoiceAction :=
  let r := s.disconnectFn
  if connOk then
    ({ r.1 with flow := ConnectionFlowState.connected,
                ws_open := true, socket_open := true },
     r.2 ++ [VoiceAction.changeVoiceState true])
  else
    let r2 := r.1.disconnectFn
    (r2.1, r.2 ++ [VoiceAction.changeVoiceState true] ++ r2.2)

/-- VoiceConnectionState._poll_voice_ws over a finite schedule of poll
outcomes.  The Bool of the result records whether the loop exited (break or
raise) before the schedule was exhausted. -/
def poll_voice_ws (reconnect : Bool) :
    List PollOutcome → VoiceState → VoiceState × Bool × List VoiceAction
  | [], s => (s, false, [])
  | o :: rest, s =>
    match o with
    | PollOutcome.ok => poll_voice_ws reconnect rest s
    | PollOutcome.closed code arrived hsOk connOk =>
      if code = 1000 ∨ code = 4015 then
        let r := s.disconnectFn
        (r.1, true, r.2)
      else if code = 4014 then
        let pr := potential_reconnect arrived hsOk s
        if pr.1 then
          let cont := poll_voice_ws reconnect rest pr.2.1
          (cont.1, cont.2.1, pr.2.2 ++ cont.2.2)
        else
          let r := pr.2.1.disconnectFn
          (r.1, true, pr.2.2 ++ r.2)
      else if ¬ reconnect then
        let r := s.disconnectFn
        (r.1, true, r.2)
      else
        let g := pollGenericBranch connOk s
        let cont := poll_voice_ws reconnect rest g.1
        (cont.1, cont.2.1, g.2 ++ cont.2.2)
    | PollOutcome.timedOut connOk =>
      if ¬ reconnect then
        let r := s.disconnectFn
        (r.1, true, r.2)
      else
        let g := pollGenericBranch connOk s
        let cont := poll_voice_ws reconnect rest g.1
        (cont.1, cont.2.1, g.2 ++ cont.2.2)

/-! ## Event Dispatch waiters: wait_for

Modelled from the spec: the wait_for(event_name, predicate, timeout)
operation of the Event Dispatch component is not implemented under src/
(only the dispatch fan-out is).  Per the spec, a waiter pairs a one-shot
result slot with a predicate, lives in a mapping from event name to an
ordered collection of waiters, is evaluated against the arguments of every
dispatched event of that name, is resolved and removed when its predicate
returns true, and fails with a Timeout condition when the timeout elapses
first.  Dispatched events are modelled as a time-stamped stream; a waiter's
timeout is modelled as the absolute deadline registration time + timeout.
-/

structure DispatchedEvent (α : Type) where
  time : Nat
  name : String
  args : α

structure SpecWaiter (α : Type) where
  name : String
  pred : α → Bool
  deadline : Nat

inductive WaitResult (α : Type) where
  | resolved (args : α)
  | timedOut
  deriving DecidableEq, Repr

/-- Modelled from the spec: the outcome of one wait_for call against the
stream of subsequently dispatched events — the first event of the waiter's
name whose predicate holds resolves it with that event's arguments, unless
the deadline elapses first (or the stream ends with no such event within
the timeout). -/
def waitForResult {α : Type} (w : SpecWaiter α) :
    List (DispatchedEvent α) → WaitResult α
  | [] => WaitResult.timedOut
  | e :: rest =>
    if w.deadline ≤ e.time then WaitResult.timedOut
    else if e.name = w.name ∧ w.pred e.args then WaitResult.resolved e.args
    else waitForResult w rest

/-- Modelled from the spec: how one dispatched event affects one registered
waiter — an elapsed deadline fails it with Timeout, an accepted predicate on
a matching event name resolves it, otherwise it stays registered. -/
def waiterFate {α : Type} (e : DispatchedEvent α) (w : SpecWaiter α) :
    Option (WaitResult α) :=
  if w.deadline ≤ e.time then some WaitResult.timedOut
  else if e.name = w.name ∧ w.pred e.args then some (WaitResult.resolved e.args)
  else none

/-- Modelled from the spec: processing one dispatched event against the
collection of registered waiters — waiters whose deadline has elapsed fail
with Timeout, waiters whose predicate accepts the event's arguments resolve;
both are removed, the rest stay registered.  Waiters are keyed so their
outcomes can be recovered. -/
def systemStep {α : Type} (e : DispatchedEvent α)
    (pending : List (Nat × SpecWaiter α)) :
    List (Nat × WaitResult α) × List (Nat × SpecWaiter α) :=
  (pending.filterMap (fun (iw : Nat × SpecWaiter α) => (waiterFate e iw.2).map (fun r => (iw.1, r))),
   pending.filter (fun (iw : Nat × SpecWaiter α) => (waiterFate e iw.2).isNone))

/-- Modelled from the spec: the dispatch loop over the event stream with the
registered waiters; waiters still pending when the stream ends (no further
event ever arrives) fail with Timeout. -/
def systemRun {α : Type} (pending : List (Nat × SpecWaiter α)) :
    List (DispatchedEvent α) → List (Nat × WaitResult α)
  | [] => pending.map (fun iw => (iw.1, WaitResult.timedOut))
  | e :: rest =>
    let step := systemStep e pending
    step.1 ++ systemRun step.2 rest

/-! ## Derived definitions used by the statements -/

/-- A trace entry that mutates the cache. -/
def isCacheMutation : Label → Bool
  | Label.cacheAppend _ => true
  | Label.cacheRemoveMessage _ => true
  | Label.cacheRemoveChannel _ => true
  | _ => false

/-- A trace entry that hands the event to user code (a callback invocation,
or its on_error replacement). -/
def isUserObserver : Label → Bool
  | Label.userCallback _ _ => true
  | Label.onError _ _ => true
  | _ => false

/-- The ordering guarantee the spec states for one dispatch: every cache
mutation in the trace completes before any user-level observer runs — i.e.
no observer entry is followed by a mutation entry. -/
def mutationsPrecedeObservers : List Label → Bool
  | [] => true
  | l :: rest =>
    (if isUserObserver l then rest.all (fun x => !(isCacheMutation x)) else true)
    && mutationsPrecedeObservers rest

/-- Replay a sequence of MESSAGE_CREATE payloads through the cache handler
(the handler never raises; the trace is dropped). -/
def applyMessageCreates (cb : CallbackBehavior) (datas : List MessageCreateData)
    (s : ConnectionState) : ConnectionState :=
  datas.foldl
    (fun st d =>
      match handle_message_create cb d st with
      | Except.ok r => r.1
      | Except.error _ => st)
    s

/-- First value registered under a key. -/
def lookupKey {β : Type} (i : Nat) : List (Nat × β) → Option β
  | [] => none
  | (j, b) :: rest => if i = j then some b else lookupKey i rest

/-! ## Concrete fixtures for the closed statements -/

def cbNone : CallbackBehavior := fun _ => false

def cbAll : CallbackBehavior := fun _ => true

def c1Data : MessageCreateData :=
  { id := 1, channel_id := none, author := 7, content := "hi" }

def c1State : ConnectionState := initialConnectionState none

def c1Msg : Message :=
  { id := 1, channel_id := none, author := 7, content := "hi",
    edited_timestamp := none }

def c1Trace : List Label :=
  [Label.userCallback "message" (Args.message c1Msg),
   Label.cacheAppend 1,
   Label.userCallback "socket_update"
     (Args.gateway (GatewayEventData.messageCreate c1Data))]

def c2State : ConnectionState :=
  { servers := [{ id := 1, channels := [{ id := 10 }] }],
    private_channels := [], messages := [], maxlen := 5000 }

def c2StateAfter : ConnectionState :=
  { servers := [{ id := 1, channels := [] }],
    private_channels := [], messages := [], maxlen := 5000 }

def c2Delete : ChannelDeleteData := { id := 10, guild_id := some 1 }

def c2Unknown : ChannelDeleteData := { id := 99, guild_id := some 1 }

def c6Data (n : Nat) : MessageCreateData :=
  { id := n, channel_id := none, author := 0, content := "m" }

def c7MsgOld : Message :=
  { id := 1, channel_id := some 10, author := 7, content := "old",
    edited_timestamp := none }

def c7MsgNew : Message :=
  { id := 1, channel_id := some 10, author := 7, content := "new",
    edited_timestamp := none }

def c7State : ConnectionState :=
  { servers := [], private_channels := [], messages := [c7MsgOld],
    maxlen := 5000 }

def c7Data : MessageUpdateData :=
  { id := 1, content := some "new", channel_id := some 55, author := some 9,
    edited_timestamp := none }

def c9Msg : Message :=
  { id := 3, channel_id := none, author := 2, content := "x",
    edited_timestamp := none }

def c3Ready : GatewayFrame :=
  { op := 0, t := some "READY", s := none, heartbeat_interval := some 41250 }

def c3Disp : GatewayFrame :=
  { op := 0, t := some "MESSAGE_CREATE", s := some 42,
    heartbeat_interval := none }

def c3Ack : GatewayFrame :=
  { op := 11, t := none, s := none, heartbeat_interval := none }

def c3Ka : KeepAlive := { intervalMs := 41250, stopped := false }

def c3W1 : WsState := { keep_alive := some c3Ka }

def c4Voice : VoiceState :=
  { flow := ConnectionFlowState.set_guild_voice_state,
    token := none, session_id := none, endpoint := none, endpoint_ip := none,
    server_id := none, ip := none, port := none, socket_open := false,
    ws_open := false, expecting_disconnect := false, channel_id := some 10 }

def c4StatePayload : VoiceStatePayload :=
  { channel_id := some 10, session_id := "sess" }

def c4ServerPayload : VoiceServerPayload :=
  { token := some "tok", guild_id := 5, endpoint := some "host.example:80" }

def c8W1 : SpecWaiter Nat :=
  { name := "x", pred := fun n => n == 5, deadline := 100 }

def c8W2 : SpecWaiter Nat :=
  { name := "x", pred := fun n => n == 7, deadline := 100 }

def c8Stream : List (DispatchedEvent Nat) :=
  [{ time := 1, name := "x", args := 3 },
   { time := 2, name := "x", args := 7 },
   { time := 3, name := "x", args := 5 }]

def c8Pending : List (Nat × SpecWaiter Nat) := [(0, c8W1), (1, c8W2)]

/-! # Theorems -/

/-! ## Ring-buffer lemmas -/

theorem lastN_eq_self {α : Type} {n : Nat} {l : List α} (h : l.length ≤ n) :
    lastN n l = l := by
  simp [lastN, Nat.sub_eq_zero_of_le h]

theorem lastN_length_le {α : Type} (n : Nat) (l : List α) :
    (lastN n l).length ≤ n := by
  simp [lastN]
  omega

theorem lastN_cons {α : Type} {n : Nat} {y : List α} (a : α) (h : n ≤ y.length) :
    lastN n (a :: y) = lastN n y := by
  have h1 : (a :: y).length - n = (y.length - n) + 1 := by
    simp [List.length_cons]
    omega
  simp only [lastN, h1, List.drop_succ_cons]

theorem lastN_append_lastN {α : Type} (n : Nat) :
    ∀ (x r : List α), lastN n (lastN n x ++ r) = lastN n (x ++ r) := by
  intro x
  induction x with
  | nil => intro r; simp [lastN]
  | cons a x ih =>
    intro r
    by_cases h : (a :: x).length ≤ n
    · rw [lastN_eq_self h]
    · have h1 : n ≤ x.length := by simp at h; omega
      have h2 : n ≤ (x ++ r).length := by simp; omega
      rw [lastN_cons a h1, ih r, List.cons_append, lastN_cons a h2]

theorem foldl_ringAppend {α : Type} (cap : Nat) :
    ∀ (ms l : List α), l.length ≤ cap →
      ms.foldl (ringAppend cap) l = lastN cap (l ++ ms) := by
  intro ms
  induction ms with
  | nil => intro l h; simp [lastN_eq_self h]
  | cons m rest ih =>
    intro l h
    have hlen : (ringAppend cap l m).length ≤ cap := lastN_length_le cap _
    calc (m :: rest).foldl (ringAppend cap) l
        = rest.foldl (ringAppend cap) (ringAppend cap l m) := rfl
      _ = lastN cap (ringAppend cap l m ++ rest) := ih _ hlen
      _ = lastN cap ((l ++ [m]) ++ rest) := lastN_append_lastN cap _ _
      _ = lastN cap (l ++ m :: rest) := by rw [List.append_assoc]; rfl

theorem applyMessageCreates_spec (cb : CallbackBehavior) :
    ∀ (datas : List MessageCreateData) (s : ConnectionState),
      applyMessageCreates cb datas s =
        (let fold := datas.foldl
          (fun l d => ringAppend s.maxlen l (messageFromCreate s d)) s.messages
         { s with messages := fold }) := by
  intro datas
  induction datas with
  | nil => intro s; rfl
  | cons d rest ih =>
    intro s
    calc applyMessageCreates cb (d :: rest) s
        = applyMessageCreates cb rest
            { s with messages := ringAppend s.maxlen s.messages (messageFromCreate s d) } := rfl
      _ = _ := by rw [ih]; rfl

/-! ## C6: message ring buffer -/

/-- C6: the message ring buffer never holds more than its configured
capacity (max_length, default 5000); replaying any sequence of
message-create events from the initial state leaves exactly the last
`capacity` created messages, in insertion order, and after capacity+1
inserts exactly the tail (the oldest insert evicted). -/
theorem message_ring_buffer_capacity :
    ∀ (cb : CallbackBehavior) (opt : Option Nat) (datas : List MessageCreateData),
      (initialConnectionState opt).maxlen = opt.getD 5000 ∧
      (applyMessageCreates cb datas (initialConnectionState opt)).messages
        = lastN (opt.getD 5000)
            (datas.map (messageFromCreate (initialConnectionState opt))) ∧
      (applyMessageCreates cb datas (initialConnectionState opt)).messages.length
        ≤ opt.getD 5000 ∧
      (datas.length = opt.getD 5000 + 1 →
        (applyMessageCreates cb datas (initialConnectionState opt)).messages
          = (datas.map (messageFromCreate (initialConnectionState opt))).tail) := by
  intro cb opt datas
  have hfold := foldl_ringAppend (opt.getD 5000)
    (datas.map (messageFromCreate (initialConnectionState opt))) []
    (by simp)
  rw [List.foldl_map] at hfold
  have key : (applyMessageCreates cb datas (initialConnectionState opt)).messages
      = lastN (opt.getD 5000)
          (datas.map (messageFromCreate (initialConnectionState opt))) := by
    rw [applyMessageCreates_spec]
    simpa using hfold
  refine ⟨rfl, key, ?_, ?_⟩
  · rw [key]; exact lastN_length_le _ _
  · intro hlen
    rw [key]
    have hml : (datas.map (messageFromCreate (initialConnectionState opt))).length
        = opt.getD 5000 + 1 := by simp [hlen]
    simp only [lastN, hml, Nat.add_sub_cancel_left]
    rw [List.drop_one]

def c6Datas : List MessageCreateData := [c6Data 1, c6Data 2, c6Data 3]

/-- Witness for C6 at capacity 2 with three inserts: the oldest message is
evicted and the newest two remain in order. -/
theorem message_ring_buffer_capacity_witness :
    (applyMessageCreates cbNone c6Datas (initialConnectionState (some 2))).messages
      = [messageFromCreate (initialConnectionState (some 2)) (c6Data 2),
         messageFromCreate (initialConnectionState (some 2)) (c6Data 3)] := by
  have h := (message_ring_buffer_capacity cbNone (some 2) c6Datas).2.2.2 (by rfl)
  rw [h]
  rfl

/-! ## C1: dispatch ordering of cache mutation vs user observers -/

/-- C1 counterexample: dispatching the MESSAGE_CREATE gateway event runs the
user-level on_message callback before the ring-buffer append, so the claimed
guarantee 'the cache mutation completes before any user-level observer is
invoked with that event' is false on this concrete dispatch. -/
theorem dispatch_cache_order_counterexample :
    dispatch cbNone c1State (Event.socket_update (GatewayEventData.messageCreate c1Data))
      = Except.ok ({ c1State with messages := [c1Msg] }, c1Trace) ∧
    mutationsPrecedeObservers c1Trace = false :=
  ⟨rfl, rfl⟩

/-- C1 (amended): dispatch always invokes the internal handler synchronously
and runs the user-level on_socket_update callback last, after the handler
completed; but inside the handler, for MESSAGE_CREATE and MESSAGE_DELETE the
user-level dispatch of the event precedes the ring-buffer mutation, while
CHANNEL_DELETE mutates before dispatching. -/
theorem dispatch_order_amended :
    ∀ (cb : CallbackBehavior) (s : ConnectionState) (gw : GatewayEventData)
      (s1 : ConnectionState) (tr : List Label),
      dispatch cb s (Event.socket_update gw) = Except.ok (s1, tr) →
      tr.getLast? = some (userLayer cb "socket_update" (Args.gateway gw)) ∧
      (∀ d, gw = GatewayEventData.messageCreate d →
        tr = [userLayer cb "message" (Args.message (messageFromCreate s d)),
              Label.cacheAppend d.id,
              userLayer cb "socket_update" (Args.gateway gw)]) ∧
      (∀ d found, gw = GatewayEventData.messageDelete d →
        utilsFind (fun m => m.id = d.id) s.messages = some found →
        tr = [userLayer cb "message_delete" (Args.message found),
              Label.cacheRemoveMessage found.id,
              userLayer cb "socket_update" (Args.gateway gw)]) ∧
      (∀ d server channel, gw = GatewayEventData.channelDelete d →
        s.getServer d.guild_id = some server →
        utilsFind (fun c => c.id = d.id) server.channels = some channel →
        tr = [Label.cacheRemoveChannel channel.id,
              userLayer cb "channel_delete" (Args.channel channel),
              userLayer cb "socket_update" (Args.gateway gw)]) := by
  intro cb s gw s1 tr h
  refine ⟨?_, ?_, ?_, ?_⟩
  · simp only [dispatch] at h
    split at h
    · cases h
      exact List.getLast?_concat _
    · exact Except.noConfusion h
  · intro d hgw
    subst hgw
    simp only [dispatch, handle_socket_update, handle_message_create] at h
    cases h
    rfl
  · intro d found hgw hf
    subst hgw
    simp only [dispatch, handle_socket_update, handle_message_delete] at h
    rw [hf] at h
    cases h
    rfl
  · intro d server channel hgw hs hf
    subst hgw
    simp only [dispatch, handle_socket_update, handle_channel_delete] at h
    rw [hs] at h
    simp only at h
    rw [hf] at h
    cases h
    rfl

/-- Witness for the amended C1 at the concrete MESSAGE_CREATE dispatch. -/
theorem dispatch_order_amended_witness :
    c1Trace.getLast? = some (userLayer cbNone "socket_update"
      (Args.gateway (GatewayEventData.messageCreate c1Data))) := by
  have h := dispatch_order_amended cbNone c1State
    (GatewayEventData.messageCreate c1Data)
    { c1State with messages := [c1Msg] } c1Trace rfl
  exact h.1

/-! ## C2: delete events with unknown ids -/

/-- C2: deleting an uncached message id is a silent no-op, but
CHANNEL_DELETE with a known guild and an uncached channel id — including the
second application of the very same delete — raises ValueError from
server.channels.remove(None) instead of being a no-op. -/
theorem delete_unknown_id_behavior :
    handle_message_delete cbNone { id := 1, channel_id := none } c2State
      = Except.ok (c2State, []) ∧
    handle_channel_delete cbNone c2Delete c2State
      = Except.ok (c2StateAfter,
          [Label.cacheRemoveChannel 10,
           Label.userCallback "channel_delete" (Args.channel { id := 10 })]) ∧
    handle_channel_delete cbNone c2Delete c2StateAfter
      = Except.error PyErr.valueError ∧
    handle_channel_delete cbNone c2Unknown c2State
      = Except.error PyErr.valueError :=
  ⟨rfl, rfl, rfl, rfl⟩

/-! ## C9 and C10: error containment and propagation in dispatch -/

theorem dispatch_state_indep (cb : CallbackBehavior) (s : ConnectionState)
    (e : Event) :
    (dispatch cb s e).map Prod.fst = (dispatch cbNone s e).map Prod.fst := by
  cases e with
  | socket_update gw =>
    cases gw with
    | messageCreate d => rfl
    | messageDelete d =>
      simp only [dispatch, handle_socket_update, handle_message_delete]
      cases hf : utilsFind (fun m => m.id = d.id) s.messages <;> rfl
    | messageUpdate d =>
      simp only [dispatch, handle_socket_update, handle_message_update]
      cases hf : utilsFind (fun m => m.id = d.id) s.messages with
      | none => rfl
      | some older =>
        simp only [bind, Except.bind]
        cases hp : applyMessageUpdate older d <;> rfl
    | channelDelete d =>
      simp only [dispatch, handle_socket_update, handle_channel_delete]
      cases hs : s.getServer d.guild_id with
      | none => rfl
      | some server =>
        simp only
        cases hf : utilsFind (fun c => c.id = d.id) server.channels <;> rfl
  | message m => rfl
  | message_delete m => rfl
  | message_edit b a => rfl
  | channel_delete c => rfl

theorem dispatch_onError_mem (cb : CallbackBehavior) (s : ConnectionState)
    (e : Event) (s1 : ConnectionState) (tr : List Label)
    (h : dispatch cb s e = Except.ok (s1, tr)) (hcb : cb e.name = true) :
    Label.onError e.name e.args ∈ tr := by
  cases e with
  | socket_update gw =>
    simp only [Event.name, Event.args] at hcb ⊢
    have hlast : userLayer cb "socket_update" (Args.gateway gw)
        = Label.onError "socket_update" (Args.gateway gw) := by
      simp [userLayer, hcb]
    simp only [dispatch] at h
    split at h
    · cases h
      rw [hlast]
      exact List.mem_append_right _ (List.mem_singleton.2 rfl)
    · exact Except.noConfusion h
  | message m =>
    cases h
    simp only [Event.name, Event.args] at hcb ⊢
    simp [userLayer, hcb]
  | message_delete m =>
    cases h
    simp only [Event.name, Event.args] at hcb ⊢
    simp [userLayer, hcb]
  | message_edit b a =>
    cases h
    simp only [Event.name, Event.args] at hcb ⊢
    simp [userLayer, hcb]
  | channel_delete c =>
    cases h
    simp only [Event.name, Event.args] at hcb ⊢
    simp [userLayer, hcb]

/-- C9: user-callback exceptions are contained — the resulting cache state
and the error status of dispatch do not depend on which user callbacks
raise, and a raising callback for the dispatched event is replaced by an
on_error invocation in the trace. -/
theorem user_callback_errors_contained :
    ∀ (cb : CallbackBehavior) (s : ConnectionState) (e : Event),
      (dispatch cb s e).map Prod.fst = (dispatch cbNone s e).map Prod.fst ∧
      (∀ s1 tr, dispatch cb s e = Except.ok (s1, tr) → cb e.name = true →
        Label.onError e.name e.args ∈ tr) :=
  fun cb s e =>
    ⟨dispatch_state_indep cb s e,
     fun s1 tr h hcb => dispatch_onError_mem cb s e s1 tr h hcb⟩

/-- Witness for C9: with every callback raising, dispatching a user-level
message event yields the same state as with no callback raising, and the
trace records the on_error invocation. -/
theorem user_callback_errors_contained_witness :
    Label.onError "message" (Args.message c9Msg)
      ∈ [Label.onError "message" (Args.message c9Msg)] := by
  have h := (user_callback_errors_contained cbAll c1State (Event.message c9Msg)).2
    c1State [Label.onError "message" (Args.message c9Msg)] rfl rfl
  exact h

/-- C10: an exception raised inside the internal cache-mutation handler is
not caught by dispatch and propagates to dispatch's caller; only the
user-level callback is wrapped by the error hook. -/
theorem handler_errors_propagate :
    ∀ (cb : CallbackBehavior) (s : ConnectionState) (gw : GatewayEventData)
      (err : PyErr),
      handle_socket_update cb gw s = Except.error err →
      dispatch cb s (Event.socket_update gw) = Except.error err := by
  intro cb s gw err h
  simp [dispatch, h]

/-- Witness for C10: the ValueError raised by the channel-delete handler on
an unknown channel id reaches dispatch's caller. -/
theorem handler_errors_propagate_witness :
    dispatch cbNone c2State (Event.socket_update (GatewayEventData.channelDelete c2Unknown))
      = Except.error PyErr.valueError :=
  handler_errors_propagate cbNone c2State (GatewayEventData.channelDelete c2Unknown)
    PyErr.valueError rfl

/-! ## C7: message update -/

/-- C7 counterexample: with message 1 (content 'old') cached and an update
payload carrying content 'new', channel_id 55 and author 9, the handler
leaves the cache unchanged (the cached message still reads 'old') and the
patched snapshot it dispatches keeps the old channel_id and author — so the
claim that exactly the payload's fields are applied to the cached message is
false at this input. -/
theorem message_update_counterexample :
    handle_message_update cbNone c7Data c7State
      = Except.ok (c7State,
          [Label.userCallback "message_edit" (Args.messagePair c7MsgOld c7MsgNew)]) ∧
    (utilsFind (fun m => m.id = c7Data.id) c7State.messages).map Message.content
      = some "old" ∧
    c7MsgNew.channel_id = some 10 ∧
    c7MsgNew.author = 7 ∧
    ¬ ("old" = "new") :=
  ⟨rfl, rfl, rfl, rfl, by decide⟩

/-- C7 (amended): an update for an uncached id is dropped with no state
change; otherwise the payload's fields except channel_id and author are
applied to a copy (timestamp fields through parse_time), the edit event is
dispatched with the before and after snapshots, and the cache itself keeps
the before snapshot (the state is unchanged). -/
theorem message_update_amended :
    ∀ (cb : CallbackBehavior) (d : MessageUpdateData) (s : ConnectionState),
      (utilsFind (fun m => m.id = d.id) s.messages = none →
        handle_message_update cb d s = Except.ok (s, [])) ∧
      (∀ older patched,
        utilsFind (fun m => m.id = d.id) s.messages = some older →
        applyMessageUpdate older d = Except.ok patched →
        handle_message_update cb d s
          = Except.ok (s,
              [userLayer cb "message_edit" (Args.messagePair older patched)]) ∧
        patched.channel_id = older.channel_id ∧
        patched.author = older.author ∧
        patched.content = d.content.getD older.content ∧
        patched.id = d.id ∧
        (d.edited_timestamp = none →
          patched.edited_timestamp = older.edited_timestamp) ∧
        (∀ ts, d.edited_timestamp = some ts →
          pyParseTime (some ts) = Except.ok patched.edited_timestamp)) := by
  intro cb d s
  constructor
  · intro hf
    simp [handle_message_update, hf]
  · intro older patched hf hp
    have hh : handle_message_update cb d s
        = Except.ok (s,
            [userLayer cb "message_edit" (Args.messagePair older patched)]) := by
      simp [handle_message_update, hf, hp, bind, Except.bind]
    refine ⟨hh, ?_⟩
    cases het : d.edited_timestamp with
    | none =>
      simp only [applyMessageUpdate, het, bind, Except.bind] at hp
      cases hp
      exact ⟨rfl, rfl, rfl, rfl, fun _ => rfl,
             fun ts hts => Option.noConfusion hts⟩
    | some ts0 =>
      simp only [applyMessageUpdate, het, bind, Except.bind] at hp
      cases hpt : pyParseTime (some ts0) with
      | error e =>
        rw [hpt] at hp
        exact Except.noConfusion hp
      | ok v =>
        rw [hpt] at hp
        cases hp
        refine ⟨rfl, rfl, rfl, rfl, ?_, ?_⟩
        · intro hnone
          exact Option.noConfusion hnone
        · intro ts hts
          cases hts
          rw [hpt]

/-- Witness for the amended C7 at the concrete update payload. -/
theorem message_update_amended_witness :
    handle_message_update cbNone c7Data c7State
      = Except.ok (c7State,
          [userLayer cbNone "message_edit" (Args.messagePair c7MsgOld c7MsgNew)]) ∧
    c7MsgNew.channel_id = c7MsgOld.channel_id := by
  have h := (message_update_amended cbNone c7Data c7State).2 c7MsgOld c7MsgNew rfl rfl
  exact ⟨h.1, h.2.1⟩

/-! ## C3: heartbeat behavior -/

/-- C3 counterexample: after READY (heartbeat interval 41250) and a dispatch
frame with sequence number 42, the next heartbeat payload carries the
current timestamp (1000), not the last-seen sequence; a frame with a
non-zero op (an acknowledgement) leaves the socket state untouched; and the
keep-alive loop never emits a reconnect — so the claimed
sequence-carrying, ack-tracking, reconnect-forcing behavior is false. -/
theorem heartbeat_counterexample :
    lastSeenSeq [c3Ready, c3Disp] = some 42 ∧
    heartbeatPayload 1000 = { op := 1, d := 1000 } ∧
    ¬ ((heartbeatPayload 1000).d = 42) ∧
    received_message c3W1 c3Ack = (c3W1, [WsAction.dispatchEvent "socket_raw_receive"]) ∧
    ¬ (WsAction.forceReconnect ∈ keepAliveRun [1000, 2000] c3Ka) :=
  ⟨rfl, rfl, by decide, by decide, by decide⟩

/-- C3 (amended): the keep-alive thread sends, every interval, a heartbeat
carrying op 1 and the current unix timestamp; frames whose op is not 0 are
ignored without any state change (no acknowledgement is recorded); the
keep-alive never forces a reconnect; and the interval is taken from the
READY payload's heartbeat_interval. -/
theorem heartbeat_amended :
    ∀ (now : Nat) (w : WsState) (f : GatewayFrame) (ticks : List Nat)
      (ka : KeepAlive) (hb : Nat),
      heartbeatPayload now = { op := 1, d := now } ∧
      (f.op ≠ 0 →
        received_message w f = (w, [WsAction.dispatchEvent "socket_raw_receive"])) ∧
      (ka.stopped = false →
        keepAliveRun ticks ka
          = ticks.map (fun tt => WsAction.sendHeartbeat { op := 1, d := tt })) ∧
      ¬ (WsAction.forceReconnect ∈ keepAliveRun ticks ka) ∧
      (f.op = 0 → f.t = some "READY" → f.heartbeat_interval = some hb →
        (received_message w f).1.keep_alive
          = some { intervalMs := hb, stopped := false }) := by
  intro now w f ticks ka hb
  refine ⟨rfl, ?_, ?_, ?_, ?_⟩
  · intro h
    simp [received_message, h]
  · intro h
    simp [keepAliveRun, h, heartbeatPayload]
  · intro hmem
    by_cases hs : ka.stopped <;> simp [keepAliveRun, hs] at hmem
  · intro h0 ht hhb
    simp [received_message, h0, ht, hhb]

/-- Witness for the amended C3: an op-11 acknowledgement frame leaves the
socket state unchanged. -/
theorem heartbeat_amended_witness :
    received_message c3W1 c3Ack = (c3W1, [WsAction.dispatchEvent "socket_raw_receive"]) :=
  (heartbeat_amended 0 c3W1 c3Ack [] c3Ka 0).2.1 (by decide)

/-! ## C4: voice gating events commute -/

/-- C4: starting from set_guild_voice_state, receiving a voice-state-update
(with a channel) and a voice-server-update (with a usable token and
endpoint) in either order yields identical states — reaching
got_both_voice_updates with the same session id, token and parsed endpoint —
and neither order emits any external action. -/
theorem voice_updates_commute :
    ∀ (s : VoiceState) (dvs : VoiceStatePayload) (dsv : VoiceServerPayload)
      (c : Nat) (tk ep : String),
      s.flow = ConnectionFlowState.set_guild_voice_state →
      dvs.channel_id = some c →
      dsv.token = some tk →
      dsv.endpoint = some ep →
      voice_server_update dsv (voice_state_update dvs s).1
        = voice_state_update dvs (voice_server_update dsv s).1 ∧
      (voice_state_update dvs s).2 = [] ∧
      (voice_server_update dsv s).2 = [] ∧
      (voice_server_update dsv (voice_state_update dvs s).1).2 = [] ∧
      (voice_state_update dvs (voice_server_update dsv s).1).2 = [] ∧
      (voice_server_update dsv (voice_state_update dvs s).1).1.flow
        = ConnectionFlowState.got_both_voice_updates ∧
      (voice_server_update dsv (voice_state_update dvs s).1).1.session_id
        = some dvs.session_id ∧
      (voice_server_update dsv (voice_state_update dvs s).1).1.token = some tk ∧
      (voice_server_update dsv (voice_state_update dvs s).1).1.endpoint
        = some (parseVoiceEndpoint ep) := by
  intro s dvs dsv c tk ep hs hc htk hep
  cases s
  cases dvs
  cases dsv
  simp only at hs hc htk hep
  subst hs
  subst hc
  subst htk
  subst hep
  exact ⟨rfl, rfl, rfl, rfl, rfl, rfl, rfl, rfl, rfl⟩

/-- Witness for C4 at a concrete pending connection. -/
theorem voice_updates_commute_witness :
    voice_server_update c4ServerPayload (voice_state_update c4StatePayload c4Voice).1
      = voice_state_update c4StatePayload (voice_server_update c4ServerPayload c4Voice).1 :=
  (voice_updates_commute c4Voice c4StatePayload c4ServerPayload 10
    "tok" "host.example:80" rfl rfl rfl rfl).1

/-! ## C5: 4014 closure with no fresh voice-server-update -/

/-- C5: when the voice websocket closes with code 4014 and the awaited
voice-server-update state never arrives within the timeout, the poll loop
disconnects (flow back to disconnected) and exits instead of retrying —
regardless of the reconnect flag and of any further scheduled outcomes; and
the 4014 recovery path only re-awaits a voice-server-update before
re-running the websocket connect/handshake, never re-requesting the voice
state. -/
theorem voice_4014_timeout_terminal :
    ∀ (reconnect : Bool) (rest : List PollOutcome) (s : VoiceState)
      (hsOk connOk arrived : Bool),
      (poll_voice_ws reconnect
        (PollOutcome.closed 4014 false hsOk connOk :: rest) s).2.1 = true ∧
      (poll_voice_ws reconnect
        (PollOutcome.closed 4014 false hsOk connOk :: rest) s).1.flow
        = ConnectionFlowState.disconnected ∧
      ¬ (VoiceAction.changeVoiceState true
          ∈ (potential_reconnect arrived hsOk s).2.2) ∧
      ((potential_reconnect arrived hsOk s).2.2).head?
        = some VoiceAction.waitForVoiceServerUpdate := by
  intro reconnect rest s hsOk connOk arrived
  refine ⟨?_, ?_, ?_, ?_⟩
  · simp [poll_voice_ws, potential_reconnect, VoiceState.disconnectFn]
  · simp [poll_voice_ws, potential_reconnect, VoiceState.disconnectFn]
  · by_cases ha : arrived <;> by_cases hh : hsOk <;>
      simp [potential_reconnect, ha, hh]
  · by_cases ha : arrived <;> by_cases hh : hsOk <;>
      simp [potential_reconnect, ha, hh]

/-! ## C8: wait_for (spec-modelled) -/

theorem lookupKey_append_not_mem {β : Type} (i : Nat) :
    ∀ (l1 l2 : List (Nat × β)), i ∉ l1.map Prod.fst →
      lookupKey i (l1 ++ l2) = lookupKey i l2 := by
  intro l1
  induction l1 with
  | nil => intro l2 _; rfl
  | cons p t ih =>
    intro l2 h
    obtain ⟨j, b⟩ := p
    simp only [List.map_cons, List.mem_cons] at h
    push_neg at h
    simp only [List.cons_append, lookupKey]
    rw [if_neg h.1]
    exact ih l2 h.2

theorem lookupKey_append_some {β : Type} (i : Nat) (b : β) :
    ∀ (l1 l2 : List (Nat × β)), lookupKey i l1 = some b →
      lookupKey i (l1 ++ l2) = some b := by
  intro l1
  induction l1 with
  | nil => intro l2 h; exact Option.noConfusion h
  | cons p t ih =>
    intro l2 h
    obtain ⟨j, c⟩ := p
    simp only [lookupKey] at h
    simp only [List.cons_append, lookupKey]
    by_cases hij : i = j
    · rw [if_pos hij] at h ⊢; exact h
    · rw [if_neg hij] at h ⊢; exact ih l2 h

theorem lookupKey_of_mem_nodup {β : Type} (i : Nat) (b : β) :
    ∀ (l : List (Nat × β)), (l.map Prod.fst).Nodup → (i, b) ∈ l →
      lookupKey i l = some b := by
  intro l
  induction l with
  | nil => intro _ h; cases h
  | cons p t ih =>
    intro hnd hmem
    obtain ⟨j, c⟩ := p
    simp only [List.map_cons, List.nodup_cons] at hnd
    rcases List.mem_cons.1 hmem with heq | hmem2
    · cases heq
      simp [lookupKey]
    · by_cases hij : i = j
      · subst hij
        exact absurd (List.mem_map.2 ⟨(i, b), hmem2, rfl⟩) hnd.1
      · simp only [lookupKey]
        rw [if_neg hij]
        exact ih hnd.2 hmem2

theorem mem_unique_nodup {β : Type} (i : Nat) (a b : β) :
    ∀ (l : List (Nat × β)), (l.map Prod.fst).Nodup → (i, a) ∈ l → (i, b) ∈ l →
      a = b := by
  intro l
  induction l with
  | nil => intro _ h; cases h
  | cons p t ih =>
    intro hnd hma hmb
    obtain ⟨j, c⟩ := p
    simp only [List.map_cons, List.nodup_cons] at hnd
    rcases List.mem_cons.1 hma with heqa | hma2 <;>
      rcases List.mem_cons.1 hmb with heqb | hmb2
    · cases heqa; cases heqb; rfl
    · cases heqa
      exact absurd (List.mem_map.2 ⟨(i, b), hmb2, rfl⟩) hnd.1
    · cases heqb
      exact absurd (List.mem_map.2 ⟨(i, a), hma2, rfl⟩) hnd.1
    · exact ih hnd.2 hma2 hmb2

theorem keys_filterMap_sublist {β γ : Type} (f : Nat × β → Option (Nat × γ))
    (hf : ∀ p q, f p = some q → q.1 = p.1) :
    ∀ (l : List (Nat × β)),
      ((l.filterMap f).map Prod.fst).Sublist (l.map Prod.fst) := by
  intro l
  induction l with
  | nil => simp
  | cons p t ih =>
    cases hp : f p with
    | none =>
      simp only [List.filterMap_cons, hp, List.map_cons]
      exact ih.cons _
    | some q =>
      simp only [List.filterMap_cons, hp, List.map_cons]
      rw [hf p q hp]
      exact ih.cons₂ _

theorem waitForResult_of_fate_some {α : Type} (e : DispatchedEvent α)
    (w : SpecWaiter α) (r : WaitResult α) (rest : List (DispatchedEvent α))
    (h : waiterFate e w = some r) :
    waitForResult w (e :: rest) = r := by
  simp only [waiterFate] at h
  simp only [waitForResult]
  split at h
  · cases h
    rw [if_pos]
    assumption
  · rw [if_neg (by assumption)]
    split at h
    · cases h
      rw [if_pos]
      assumption
    · exact Option.noConfusion h

theorem waitForResult_of_fate_none {α : Type} (e : DispatchedEvent α)
    (w : SpecWaiter α) (rest : List (DispatchedEvent α))
    (h : waiterFate e w = none) :
    waitForResult w (e :: rest) = waitForResult w rest := by
  simp only [waiterFate] at h
  split at h
  · exact Option.noConfusion h
  · split at h
    · exact Option.noConfusion h
    · simp only [waitForResult]
      rw [if_neg (by assumption), if_neg (by assumption)]

theorem systemRun_lookup {α : Type} :
    ∀ (stream : List (DispatchedEvent α)) (pending : List (Nat × SpecWaiter α))
      (i : Nat) (w : SpecWaiter α),
      (pending.map Prod.fst).Nodup → (i, w) ∈ pending →
      lookupKey i (systemRun pending stream) = some (waitForResult w stream) := by
  intro stream
  induction stream with
  | nil =>
    intro pending i w hnd hmem
    have hmem2 : (i, WaitResult.timedOut (α := α))
        ∈ pending.map (fun iw => (iw.1, WaitResult.timedOut)) :=
      List.mem_map.2 ⟨(i, w), hmem, rfl⟩
    have hnd2 : ((pending.map (fun iw => (iw.1, WaitResult.timedOut (α := α)))).map
        Prod.fst).Nodup := by
      rw [List.map_map]
      exact hnd
    exact lookupKey_of_mem_nodup i _ _ hnd2 hmem2
  | cons e rest ih =>
    intro pending i w hnd hmem
    have hkey : ∀ p q, ((fun (iw : Nat × SpecWaiter α) => (waiterFate e iw.2).map (fun r => (iw.1, r))) p
        = some q) → q.1 = p.1 := by
      intro p q hq
      rcases Option.map_eq_some'.1 hq with ⟨r, _, hr2⟩
      rw [← hr2]
    cases hfate : waiterFate e w with
    | some r =>
      have hm1 : (i, r) ∈ pending.filterMap
          (fun (iw : Nat × SpecWaiter α) => (waiterFate e iw.2).map (fun r => (iw.1, r))) :=
        List.mem_filterMap.2 ⟨(i, w), hmem, by simp [hfate]⟩
      have hnd1 : ((pending.filterMap
          (fun (iw : Nat × SpecWaiter α) => (waiterFate e iw.2).map (fun r => (iw.1, r)))).map
            Prod.fst).Nodup :=
        ((keys_filterMap_sublist _ hkey pending).nodup hnd)
      have hlk : lookupKey i (pending.filterMap
          (fun (iw : Nat × SpecWaiter α) => (waiterFate e iw.2).map (fun r => (iw.1, r)))) = some r :=
        lookupKey_of_mem_nodup i r _ hnd1 hm1
      simp only [systemRun, systemStep]
      rw [lookupKey_append_some i r _ _ hlk,
          waitForResult_of_fate_some e w r rest hfate]
    | none =>
      have hm2 : (i, w) ∈ pending.filter
          (fun (iw : Nat × SpecWaiter α) => (waiterFate e iw.2).isNone) :=
        List.mem_filter.2 ⟨hmem, by simp [hfate]⟩
      have hnotin : i ∉ (pending.filterMap
          (fun (iw : Nat × SpecWaiter α) => (waiterFate e iw.2).map (fun r => (iw.1, r)))).map Prod.fst := by
        intro hin
        obtain ⟨⟨i2, r⟩, hmem1, hfst⟩ := List.mem_map.1 hin
        obtain ⟨⟨j, w2⟩, hmemp, hfj⟩ := List.mem_filterMap.1 hmem1
        rcases Option.map_eq_some'.1 hfj with ⟨r2, hw2, heq2⟩
        cases heq2
        simp only at hfst
        rw [hfst] at hmemp
        have hw : w2 = w := mem_unique_nodup i w2 w pending hnd hmemp hmem
        rw [hw] at hw2
        rw [hfate] at hw2
        exact Option.noConfusion hw2
      have hnd2 : ((pending.filter (fun (iw : Nat × SpecWaiter α) => (waiterFate e iw.2).isNone)).map
          Prod.fst).Nodup :=
        ((pending.filter_sublist.map Prod.fst).nodup hnd)
      simp only [systemRun, systemStep]
      rw [lookupKey_append_not_mem i _ _ hnotin,
          ih _ i w hnd2 hm2,
          waitForResult_of_fate_none e w rest hfate]

/-- C8: wait_for resolves with the arguments of the first dispatched event
of its name accepted by its predicate before the deadline; it fails with
Timeout when no such event arrives in time; and in the multi-waiter dispatch
system every registered waiter's outcome equals its standalone outcome, so
concurrent waiters with different predicates resolve independently. -/
theorem wait_for_spec {α : Type} (w : SpecWaiter α) :
    (∀ (pre post : List (DispatchedEvent α)) (e : DispatchedEvent α),
      (∀ e2 ∈ pre, e2.time < w.deadline ∧
        ¬ (e2.name = w.name ∧ w.pred e2.args = true)) →
      e.time < w.deadline → e.name = w.name → w.pred e.args = true →
      waitForResult w (pre ++ e :: post) = WaitResult.resolved e.args) ∧
    (∀ (stream : List (DispatchedEvent α)),
      (∀ e2 ∈ stream, ¬ (e2.time < w.deadline ∧ e2.name = w.name ∧
        w.pred e2.args = true)) →
      waitForResult w stream = WaitResult.timedOut) ∧
    (∀ (pending : List (Nat × SpecWaiter α))
      (stream : List (DispatchedEvent α)) (i : Nat),
      (pending.map Prod.fst).Nodup → (i, w) ∈ pending →
      lookupKey i (systemRun pending stream)
        = some (waitForResult w stream)) := by
  refine ⟨?_, ?_, ?_⟩
  · intro pre
    induction pre with
    | nil =>
      intro post e _ htime hname hpred
      simp only [List.nil_append, waitForResult]
      rw [if_neg (by omega), if_pos ⟨hname, hpred⟩]
    | cons p t ih =>
      intro post e hpre htime hname hpred
      have hp := hpre p (List.mem_cons_self p t)
      simp only [List.cons_append, waitForResult]
      rw [if_neg (by omega), if_neg hp.2]
      exact ih post e (fun e2 he2 => hpre e2 (List.mem_cons_of_mem p he2))
        htime hname hpred
  · intro stream
    induction stream with
    | nil => intro _; rfl
    | cons p t ih =>
      intro hs
      by_cases hd : w.deadline ≤ p.time
      · simp only [waitForResult]
        rw [if_pos hd]
      · have hp := hs p (List.mem_cons_self p t)
        have hnm : ¬ (p.name = w.name ∧ w.pred p.args = true) := by
          intro hx
          exact hp ⟨by omega, hx.1, hx.2⟩
        simp only [waitForResult]
        rw [if_neg hd, if_neg hnm]
        exact ih (fun e2 he2 => hs e2 (List.mem_cons_of_mem p he2))
  · intro pending stream i hnd hmem
    exact systemRun_lookup stream pending i w hnd hmem

/-- Witness for C8: two waiters on the same event with different predicates
both resolve, each with the first event its own predicate accepts. -/
theorem wait_for_spec_witness :
    lookupKey 0 (systemRun c8Pending c8Stream) = some (WaitResult.resolved 5) ∧
    lookupKey 1 (systemRun c8Pending c8Stream) = some (WaitResult.resolved 7) := by
  have h0 := (wait_for_spec c8W1).2.2 c8Pending c8Stream 0 (by decide)
    (List.mem_cons_self _ _)
  have h1 := (wait_for_spec c8W2).2.2 c8Pending c8Stream 1 (by decide)
    (List.mem_cons_of_mem _ (List.mem_cons_self _ _))
  rw [h0, h1]
  exact ⟨rfl, rfl⟩

end Spec2Proof

